import Mathlib

/-!
# Verification of the docker registry-image resource client

Shallow embedding of `src/docker/resource_docker_registry_image_funcs.go`
and `src/docker/resource_docker_registry_image.go` from
SumoServer/terraform-provider-docker.

The HTTP network is modelled as an oracle `Request → Except String Response`
(`Except.error` models a transport failure of `client.Do`).  Each operation
returns its Go result together with the ordered trace of HTTP requests it
issued, so that "no further request is sent" is a provable statement.

Helpers of the Go standard library that the source calls (`base64`,
`url.Values.Encode`, `strconv.Atoi`, `strings.Replace`) are embedded
faithfully below.  Functions of this repository that are referenced by the
source but whose files are not part of the excerpt (`parseImageOptions`,
`normalizeRegistryAddress`, `parseAuthHeader`, `TokenResponse`) are modelled
from the specification and their doc comments say so.
-/

namespace Docker

set_option maxRecDepth 16384

/-! ### Structurally recursive string helpers

Core `String` functions such as `String.startsWith`, `String.splitOn` and
`String.drop` are defined by well-founded recursion over byte positions
and do not reduce inside the kernel, so the embedding works on character
lists with structurally recursive equivalents, keeping `String` at the
boundary. -/

/-- UTF-8 encoding of one character, as byte values. -/
def utf8Bytes (c : Char) : List Nat :=
  let n := c.toNat
  if n < 0x80 then [n]
  else if n < 0x800 then [0xC0 + n / 0x40, 0x80 + n % 0x40]
  else if n < 0x10000 then
    [0xE0 + n / 0x1000, 0x80 + n / 0x40 % 0x40, 0x80 + n % 0x40]
  else
    [0xF0 + n / 0x40000, 0x80 + n / 0x1000 % 0x40,
     0x80 + n / 0x40 % 0x40, 0x80 + n % 0x40]

/-- Bytes of a string (UTF-8), as naturals. -/
def strBytes (s : String) : List Nat :=
  (s.toList.map utf8Bytes).flatten

/-- Is the first list a prefix of the second? -/
def isPre : List Char → List Char → Bool
  | [], _ => true
  | _ :: _, [] => false
  | a :: as, b :: bs => a == b && isPre as bs

/-- Go `strings.HasPrefix`. -/
def strStartsWith (s p : String) : Bool := isPre p.toList s.toList

/-- Split at the first occurrence of the non-empty pattern `pat`:
`some (before, after)`, or `none` when `pat` does not occur. -/
def splitFirst (pat : List Char) : List Char → Option (List Char × List Char)
  | [] => none
  | c :: rest =>
    if isPre pat (c :: rest) then some ([], (c :: rest).drop pat.length)
    else
      match splitFirst pat rest with
      | some p => some (c :: p.1, p.2)
      | none => none

/-- Split on every occurrence of a one-character separator
(Go `strings.Split` for a single-character separator). -/
def splitAllChar (sep : Char) : List Char → List (List Char)
  | [] => [[]]
  | c :: rest =>
    let r := splitAllChar sep rest
    if c == sep then [] :: r
    else
      match r with
      | [] => [[c]]
      | t :: ts => (c :: t) :: ts

/-- Lexicographic comparison of character lists (byte-wise for the ASCII
keys this development sorts). -/
def charListLt : List Char → List Char → Bool
  | [], [] => false
  | [], _ :: _ => true
  | _ :: _, [] => false
  | a :: as, b :: bs => a.toNat < b.toNat || (a == b && charListLt as bs)

def strLe (a b : String) : Bool := !charListLt b.toList a.toList

def strIntercalate (sep : String) : List String → String
  | [] => ""
  | [x] => x
  | x :: y :: xs => x ++ sep ++ strIntercalate sep (y :: xs)

/-- The base64 alphabet: standard (`+/`, used by `SetBasicAuth`) or
URL-safe (`-_`, used by `base64.URLEncoding` for the push auth header). -/
def b64Alphabet (urlSafe : Bool) : List Char :=
  ("ABCDEFGHIJKLMNOPQRSTUVWXYZabcdefghijklmnopqrstuvwxyz0123456789").toList
    ++ (if urlSafe then ['-', '_'] else ['+', '/'])

def b64Char (urlSafe : Bool) (n : Nat) : Char :=
  (b64Alphabet urlSafe).getD n 'A'

/-- Base64 encoding of a byte list with padding, as in Go's
`encoding/base64` `StdEncoding` / `URLEncoding`. -/
def base64Chunks (urlSafe : Bool) : List Nat → List Char
  | [] => []
  | [b1] =>
      [b64Char urlSafe (b1 / 4), b64Char urlSafe (b1 % 4 * 16), '=', '=']
  | [b1, b2] =>
      [b64Char urlSafe (b1 / 4), b64Char urlSafe (b1 % 4 * 16 + b2 / 16),
       b64Char urlSafe (b2 % 16 * 4), '=']
  | b1 :: b2 :: b3 :: rest =>
      b64Char urlSafe (b1 / 4) :: b64Char urlSafe (b1 % 4 * 16 + b2 / 16) ::
      b64Char urlSafe (b2 % 16 * 4 + b3 / 64) :: b64Char urlSafe (b3 % 64) ::
      base64Chunks urlSafe rest

def base64Encode (urlSafe : Bool) (bytes : List Nat) : String :=
  String.mk (base64Chunks urlSafe bytes)

/-- Go `strings.Replace(s, pat, "", 1)` for a non-empty `pat`: delete the
first occurrence of `pat` in `s`, if any. -/
def replaceFirst (s pat : String) : String :=
  match splitFirst pat.toList s.toList with
  | none => s
  | some p => String.mk (p.1 ++ p.2)

/-- Hexadecimal digit in uppercase. -/
def hexDigit (n : Nat) : Char :=
  if n < 10 then Char.ofNat (48 + n) else Char.ofNat (55 + n)

/-- Go `url.QueryEscape` of one byte: unreserved bytes kept, space becomes
`+`, anything else percent-encoded with uppercase hex. -/
def queryEscapeByte (b : Nat) : List Char :=
  if (65 ≤ b && b ≤ 90) || (97 ≤ b && b ≤ 122) || (48 ≤ b && b ≤ 57)
      || b == 45 || b == 95 || b == 46 || b == 126 then
    [Char.ofNat b]
  else if b == 32 then ['+']
  else ['%', hexDigit (b / 16), hexDigit (b % 16)]

/-- Go `url.QueryEscape`. -/
def queryEscape (s : String) : String :=
  String.mk (((strBytes s).map queryEscapeByte).flatten)

/-- Insertion of one key/value pair keeping keys sorted, for
`url.Values.Encode`, which emits keys in sorted order. -/
def insertSortedKV (kv : String × String) :
    List (String × String) → List (String × String)
  | [] => [kv]
  | p :: rest =>
      if strLe kv.1 p.1 then kv :: p :: rest else p :: insertSortedKV kv rest

def sortByKey (kvs : List (String × String)) : List (String × String) :=
  kvs.foldr insertSortedKV []

/-- Go `url.Values.Encode`: keys sorted, each pair rendered as
`escape(k)=escape(v)`, joined by `&`. -/
def urlValuesEncode (kvs : List (String × String)) : String :=
  strIntercalate "&"
    ((sortByKey kvs).map (fun kv => queryEscape kv.1 ++ "=" ++ queryEscape kv.2))

/-! ## HTTP model -/

/-- An outgoing HTTP request: method, URL, and headers (an association
list; `headerSet` below reproduces `http.Header.Set`, which replaces any
previous value of the key). -/
structure Request where
  method : String
  url : String
  headers : List (String × String)
deriving DecidableEq, Repr

/-- Go `http.Header.Set`: replace any existing value of the key. -/
def headerSet (key value : String) (req : Request) : Request :=
  { req with headers := (key, value) :: req.headers.filter (fun kv => kv.1 ≠ key) }

/-- Go `Request.SetBasicAuth(username, password)`: sets the `Authorization`
header to `Basic` followed by the standard base64 of `username:password`. -/
def setBasicAuth (username password : String) (req : Request) : Request :=
  headerSet "Authorization"
    ("Basic " ++ base64Encode false (strBytes (username ++ ":" ++ password))) req

/-- A JSON value, the shape `encoding/json` decodes a body into. -/
inductive Json where
  | null
  | bool (b : Bool)
  | num (n : Int)
  | str (s : String)
  | arr (elems : List Json)
  | obj (fields : List (String × Json))

/-- An HTTP response as the delete flow observes it: status code, the
status line (Go's `resp.Status`, e.g. `"401 Unauthorized"`), the value of
the `www-authenticate` header (`""` when absent), and the body.
`body = .error e` models an `ioutil.ReadAll` failure, `.ok none` models
bytes that are not well-formed JSON, `.ok (some j)` well-formed JSON. -/
structure Response where
  statusCode : Nat
  status : String
  wwwAuthenticate : String
  body : Except String (Option Json)

/-- The network oracle: what `client.Do` returns for a request.
`Except.error` is a transport failure. -/
def HttpEnv : Type := Request → Except String Response

/-! ## Pieces of this repository referenced by src/ but outside the excerpt,
modelled from the specification -/

/-- Modelled from the spec: `parseAuthHeader` is called at
`resource_docker_registry_image_funcs.go:159` but defined in a file not in
the excerpt.  Per §4.4 of the spec it parses the challenge header's
comma-separated `key="value"` pairs (after the `Bearer` scheme word) into
a map; values are stripped of surrounding quotes, commas and spaces. -/
def parseAuthHeader (header : String) : List (String × String) :=
  let afterScheme :=
    match splitFirst [' '] header.toList with
    | none => []
    | some p => p.2
  let isTrim : Char → Bool := fun c => c == '"' || c == ',' || c == ' '
  let trim : List Char → String := fun cs =>
    String.mk ((cs.dropWhile isTrim).reverse.dropWhile isTrim |>.reverse)
  (splitAllChar ',' afterScheme).map (fun part =>
    match splitFirst ['='] part with
    | none => (trim part, trim [])
    | some p => (trim p.1, trim p.2))

/-- Go map lookup with the zero value for a missing key, as the source
uses the `parseAuthHeader` result (`auth["service"]` etc.). -/
def challengeGet (pairs : List (String × String)) (key : String) : String :=
  match pairs.find? (fun kv => kv.1 = key) with
  | some kv => kv.2
  | none => ""

/-- Modelled from the spec: `TokenResponse` is referenced at
`resource_docker_registry_image_funcs.go:188` but declared in a file not
in the excerpt.  Per §4.4/§6 it is the token endpoint's JSON body
`\x7b"token": "..."\x7d` decoded into a struct with a single `token` field. -/
structure TokenResponse where
  Token : String

/-- Go `json.Unmarshal` of a decoded JSON value into `TokenResponse`:
an object takes its `token` field when it is a string (zero value when the
field is absent), a non-string `token` field or a non-object, non-null
document is a decoding error, and JSON `null` leaves the zero value. -/
def unmarshalTokenResponse (j : Json) : Except String TokenResponse :=
  match j with
  | .obj fields =>
      match fields.find? (fun f => f.1 = "token") with
      | some f =>
          match f.2 with
          | .str s => .ok ⟨s⟩
          | _ => .error "cannot unmarshal field token"
      | none => .ok ⟨""⟩
  | .null => .ok ⟨""⟩
  | _ => .error "cannot unmarshal into TokenResponse"

/-! ## removeRegistryImage (resource_docker_registry_image_funcs.go:116-214) -/

/-- Construction of the initial DELETE request
(`resource_docker_registry_image_funcs.go:132-139`): URL
`https://{registry}/v2/{image}/manifests/{manifest}`, basic auth attached
only when the username is non-empty. -/
def initialRequest (registry image manifest username password : String) :
    Request :=
  let req : Request :=
    ⟨"DELETE", "https://" ++ registry ++ "/v2/" ++ image ++ "/manifests/" ++ manifest, []⟩
  if username ≠ "" then setBasicAuth username password req else req

/-- Construction of the token-endpoint GET request
(`resource_docker_registry_image_funcs.go:160-171`): URL
`{realm}?{service,scope url-encoded}` (with `url.Values.Encode` emitting
the keys in sorted order), basic auth attached only when the username is
non-empty. -/
def tokenEndpointRequest (challenge : List (String × String))
    (username password : String) : Request :=
  let params := urlValuesEncode
    [("service", challengeGet challenge "service"),
     ("scope", challengeGet challenge "scope")]
  let req : Request := ⟨"GET", challengeGet challenge "realm" ++ "?" ++ params, []⟩
  if username ≠ "" then setBasicAuth username password req else req

/-- Embedding of `removeRegistryImage`
(`resource_docker_registry_image_funcs.go:116-214`).  Returns the Go
result (`.ok ()` for a `nil` error) together with the ordered list of HTTP
requests issued.  The `http.NewRequest` error branches (lines 133-135 and
165-167, Go URL validation outside this repository) are not modelled: the
oracle receives every constructed request. -/
def removeRegistryImage (env : HttpEnv)
    (registry image manifest username password : String) :
    Except String Unit × List Request :=
  let req := initialRequest registry image manifest username password
  match env req with
  | .error e => (.error ("Error during registry request: " ++ e), [req])
  | .ok resp =>
    -- Basic auth was valid or not needed
    if resp.statusCode = 202 then (.ok (), [req])
    -- Assume the manifest was deleted
    else if resp.statusCode = 404 then (.ok (), [req])
    -- Either OAuth is required or the basic auth creds were invalid
    else if resp.statusCode = 401 then
      if strStartsWith resp.wwwAuthenticate "Bearer" then
        let challenge := parseAuthHeader resp.wwwAuthenticate
        let tokenReq := tokenEndpointRequest challenge username password
        match env tokenReq with
        | .error e =>
            (.error ("Error during registry request: " ++ e), [req, tokenReq])
        | .ok tokenResponse =>
          if tokenResponse.statusCode ≠ 200 then
            (.error ("Got bad response from registry: " ++ tokenResponse.status),
             [req, tokenReq])
          else
            match tokenResponse.body with
            | .error e =>
                (.error ("Error reading response body: " ++ e), [req, tokenReq])
            | .ok none =>
                (.error ("Error parsing OAuth token response: invalid JSON"),
                 [req, tokenReq])
            | .ok (some j) =>
              match unmarshalTokenResponse j with
              | .error e =>
                  (.error ("Error parsing OAuth token response: " ++ e),
                   [req, tokenReq])
              | .ok token =>
                let retried := headerSet "Authorization" ("Bearer " ++ token.Token) req
                match env retried with
                | .error e =>
                    (.error ("Error during registry request: " ++ e),
                     [req, tokenReq, retried])
                | .ok digestResponse =>
                  if digestResponse.statusCode ≠ 200 then
                    (.error ("Got bad response from registry: " ++ digestResponse.status),
                     [req, tokenReq, retried])
                  else (.ok (), [req, tokenReq, retried])
      else (.error ("Bad credentials: " ++ resp.status), [req])
    -- Some unexpected status was given, return an error
    else (.error ("Got bad response from registry: " ++ resp.status), [req])

/-! ## Reference parsing and credential lookup -/

/-- Parsed image reference: registry host, repository path, tag. -/
structure PullImageOptions where
  Registry : String
  Repository : String
  Tag : String
deriving DecidableEq, Repr

/-- Modelled from the spec: `parseImageOptions` is called at
`resource_docker_registry_image_funcs.go:44` and `:85` but defined in a
file not in the excerpt.  Per §4.1 the leading `/`-delimited segment is
the registry host iff it contains a `.`, a `:`, or equals `localhost`;
otherwise the whole string is repository path.  The repository field keeps
the registry prefix (the delete caller strips it itself at line 53).  A
`:<tag>` suffix found after the registry prefix is the tag (a colon inside
the registry segment is a port, which this search excludes).  The
digest-suffix rule of §4.1 plays no role in the claims settled here and is
not modelled. -/
def parseImageOptions (image : String) : PullImageOptions :=
  let cs := image.toList
  let registry : List Char :=
    match splitFirst ['/'] cs with
    | none => []
    | some p =>
        if p.1.any (fun c => c == '.') || p.1.any (fun c => c == ':')
            || p.1 == "localhost".toList
        then p.1 else []
  match splitFirst [':'] (cs.drop registry.length) with
  | none => ⟨String.mk registry, image, ""⟩
  | some p => ⟨String.mk registry, String.mk (registry ++ p.1), String.mk p.2⟩

/-- Modelled from the spec: `normalizeRegistryAddress` is called at
`resource_docker_registry_image_funcs.go:70` and `:90` but defined in a
file not in the excerpt.  Per §4.1 the credential-table key is the
scheme-qualified registry address: an address without an explicit scheme
is prefixed with `https://`. -/
def normalizeRegistryAddress (address : String) : String :=
  if strStartsWith address "http://" || strStartsWith address "https://" then
    address
  else "https://" ++ address

/-- One entry of the credential table (the username/password fields of
the docker `types.AuthConfig` that this code reads and serializes). -/
structure AuthConfigEntry where
  Username : String
  Password : String
deriving DecidableEq, Repr

/-- The provider's credential table `AuthConfigs.Configs`: a map from
normalized registry address to credentials, embedded as an association
list with exact-match lookup. -/
def configsLookup (configs : List (String × AuthConfigEntry)) (key : String) :
    Option AuthConfigEntry :=
  (configs.find? (fun kv => kv.1 = key)).map (fun kv => kv.2)

/-! ## pushImage (resource_docker_registry_image_funcs.go:84-114) -/

/-- Credential resolution of `pushImage`
(`resource_docker_registry_image_funcs.go:88-98`): the table entry for the
normalized registry when the reference names one, the entry for
`https://registry.hub.docker.com` otherwise, and the zero value when no
entry matches. -/
def pushAuthResolved (configs : List (String × AuthConfigEntry))
    (image : String) : AuthConfigEntry :=
  let pullOpts := parseImageOptions image
  if pullOpts.Registry ≠ "" then
    (configsLookup configs (normalizeRegistryAddress pullOpts.Registry)).getD ⟨"", ""⟩
  else
    (configsLookup configs "https://registry.hub.docker.com").getD ⟨"", ""⟩

/-- Go `json.Marshal` of the resolved credentials, modelled from the spec
(§4.3): a JSON object whose `username`/`password` fields are omitted when
empty, so the zero value marshals to the empty object. -/
def marshalAuthConfig (a : AuthConfigEntry) : String :=
  "\x7b" ++ strIntercalate ","
    ((if a.Username = "" then [] else ["\"username\":\"" ++ a.Username ++ "\""])
      ++ (if a.Password = "" then [] else ["\"password\":\"" ++ a.Password ++ "\""]))
  ++ "\x7d"

/-- The `RegistryAuth` header value `pushImage` submits
(`resource_docker_registry_image_funcs.go:100-107`): URL-safe base64 of
the JSON-marshalled resolved credentials. -/
def pushRegistryAuth (configs : List (String × AuthConfigEntry))
    (image : String) : String :=
  base64Encode true (strBytes (marshalAuthConfig (pushAuthResolved configs image)))

/-! ## Delete resource wrapper (resource_docker_registry_image_funcs.go:39-82) -/

/-- Registry/repository/tag normalization performed by
`resourceDockerRegistryImageDelete` (lines 48-65): default the registry to
`registry.hub.docker.com` when absent, otherwise strip the registry prefix
from the repository; prefix `library/` to single-segment Docker Hub
repositories; default the tag to `latest`. -/
def deleteNormalize (image : String) : PullImageOptions :=
  let p0 := parseImageOptions image
  -- Use the official Docker Hub if a registry isn't specified
  let p1 :=
    if p0.Registry = "" then { p0 with Registry := "registry.hub.docker.com" }
    -- Otherwise, filter the registry name out of the repo name
    else { p0 with Repository := replaceFirst p0.Repository (p0.Registry ++ "/") }
  -- Docker prefixes 'library' to official images in the path
  let p2 :=
    if p1.Registry = "registry.hub.docker.com"
        && !p1.Repository.toList.any (fun c => c == '/') then
      { p1 with Repository := "library/" ++ p1.Repository }
    else p1
  if p2.Tag = "" then { p2 with Tag := "latest" } else p2

/-- The credential-table key the delete path looks up (lines 67-73). -/
def deleteCredKey (image : String) : String :=
  normalizeRegistryAddress (deleteNormalize image).Registry

/-- The inputs the resource wrapper reads from the Terraform state
(`d.Get("keep_remote")`, `d.Get("name")`, `d.Get("sha256_digest")`). -/
structure ResourceData where
  name : String
  sha256Digest : String
  keepRemote : Bool

/-- Embedding of `resourceDockerRegistryImageDelete`
(`resource_docker_registry_image_funcs.go:39-82`): return `nil` at once
when `keep_remote` is set, otherwise normalize the reference, resolve
credentials and run `removeRegistryImage`, wrapping its error.  As for
`removeRegistryImage`, the second component is the trace of HTTP requests
issued. -/
def resourceDockerRegistryImageDelete (env : HttpEnv) (d : ResourceData)
    (configs : List (String × AuthConfigEntry)) :
    Except String Unit × List Request :=
  if d.keepRemote then (.ok (), [])
  else
    let pullOpts := deleteNormalize d.name
    let auth := configsLookup configs (normalizeRegistryAddress pullOpts.Registry)
    let username := (auth.map (fun a => a.Username)).getD ""
    let password := (auth.map (fun a => a.Password)).getD ""
    let r := removeRegistryImage env pullOpts.Registry pullOpts.Repository
      d.sha256Digest username password
    match r.1 with
    | .error e => (.error ("Unable to remove Docker image: " ++ e), r.2)
    | .ok _ => (.ok (), r.2)

/-! ## TF_ACC transport gate (resource_docker_registry_image_funcs.go:117-130) -/

/-- Go `strconv.Atoi` on a 64-bit platform: an optional sign followed by at
least one decimal digit, syntax error otherwise, range error outside the
`int64` range. -/
def goAtoi (s : String) : Except String Int :=
  let (neg, digits) :=
    match s.toList with
    | '-' :: rest => (true, rest)
    | '+' :: rest => (false, rest)
    | cs => (false, cs)
  if digits.isEmpty then .error "invalid syntax"
  else if !digits.all Char.isDigit then .error "invalid syntax"
  else
    let mag : Nat := digits.foldl (fun acc c => acc * 10 + (c.toNat - 48)) 0
    let v : Int := if neg then -(mag : Int) else (mag : Int)
    if v < -(2 ^ 63) || v > 2 ^ 63 - 1 then .error "value out of range"
    else .ok v

/-- The transport decision of `removeRegistryImage` (lines 117-130): an
`InsecureSkipVerify` TLS transport is installed iff the `TF_ACC`
environment variable is present (`none` models an unset variable),
`strconv.Atoi` accepts it, and the parsed value is at least 1. -/
def insecureTransportInstalled (tfAcc : Option String) : Bool :=
  match tfAcc with
  | none => false
  | some env =>
    match goAtoi env with
    | .ok i => decide (1 ≤ i)
    | .error _ => false

/-! ## Concrete environments used to instantiate the theorems -/

/-- A well-formed Bearer challenge header. -/
def bearerHdr : String :=
  "Bearer realm=\"https://auth.example.com/token\",service=\"example.com\",scope=\"repository:library/foo:delete\""

/-- A well-formed token body carrying token `tok123`. -/
def tokenJson : Json := .obj [("token", .str "tok123")]

/-- A registry whose initial (unauthenticated) DELETE answers 401 with
`bearerHdr`, whose token endpoint answers with the given status carrying
`tokenJson`, and whose retried DELETE answers with the given status. -/
def envBearer (tokenStatus : Nat) (tokenStatusLine : String)
    (retryStatus : Nat) (retryStatusLine : String) : HttpEnv := fun r =>
  if r.method = "GET" then
    .ok ⟨tokenStatus, tokenStatusLine, "", .ok (some tokenJson)⟩
  else if r.headers = [] then
    .ok ⟨401, "401 Unauthorized", bearerHdr, .ok none⟩
  else
    .ok ⟨retryStatus, retryStatusLine, "", .ok none⟩

/-- A registry that answers every request with 404. -/
def env404 : HttpEnv := fun _ => .ok ⟨404, "404 Not Found", "", .ok none⟩

/-- A registry that answers every request with 401 and a non-Bearer
challenge. -/
def env401Basic : HttpEnv :=
  fun _ => .ok ⟨401, "401 Unauthorized", "Basic realm=\"registry\"", .ok none⟩

/-! ## Theorems -/

/-- C2. A delete call whose initial DELETE receives HTTP 404 returns
success (`nil`), and its request trace is exactly the initial request: no
further HTTP request is issued and the bearer flow is not attempted. -/
theorem removeRegistryImage_notFound_ok (env : HttpEnv)
    (registry image manifest username password : String) (resp : Response)
    (h1 : env (initialRequest registry image manifest username password) = .ok resp)
    (h2 : resp.statusCode = 404) :
    removeRegistryImage env registry image manifest username password
      = (.ok (), [initialRequest registry image manifest username password]) := by
  simp [removeRegistryImage, h1, h2]

/-- Witness for C2: a concrete delete against a registry answering 404. -/
theorem removeRegistryImage_notFound_ok_witness :
    removeRegistryImage env404 "example.com" "library/foo" "sha256:abc" "" ""
      = (.ok (), [initialRequest "example.com" "library/foo" "sha256:abc" "" ""]) :=
  removeRegistryImage_notFound_ok env404 "example.com" "library/foo" "sha256:abc"
    "" "" ⟨404, "404 Not Found", "", .ok none⟩ (by rfl) (by rfl)

/-- C5. A delete call whose initial DELETE receives 401 with a
`WWW-Authenticate` header that does not begin with `Bearer` returns the
`Bad credentials` failure carrying the HTTP status line, and its trace is
exactly the initial request: no further request is issued. -/
theorem removeRegistryImage_badCredentials (env : HttpEnv)
    (registry image manifest username password : String) (resp : Response)
    (h1 : env (initialRequest registry image manifest username password) = .ok resp)
    (h2 : resp.statusCode = 401)
    (h3 : strStartsWith resp.wwwAuthenticate "Bearer" = false) :
    removeRegistryImage env registry image manifest username password
      = (.error ("Bad credentials: " ++ resp.status),
         [initialRequest registry image manifest username password]) := by
  simp [removeRegistryImage, h1, h2, h3]

/-- Witness for C5: a concrete delete against a registry demanding basic
auth. -/
theorem removeRegistryImage_badCredentials_witness :
    removeRegistryImage env401Basic "example.com" "library/foo" "sha256:abc" "" ""
      = (.error "Bad credentials: 401 Unauthorized",
         [initialRequest "example.com" "library/foo" "sha256:abc" "" ""]) :=
  removeRegistryImage_badCredentials env401Basic "example.com" "library/foo"
    "sha256:abc" "" ""
    ⟨401, "401 Unauthorized", "Basic realm=\"registry\"", .ok none⟩
    (by rfl) (by rfl) (by decide)

/-- C3. When the bearer sub-flow is entered and the token-endpoint GET
returns any status other than 200, the call fails with the
`Got bad response from registry` error carrying that response's status
line, and the trace stops at the token request: the retried DELETE is
never issued. -/
theorem removeRegistryImage_tokenFetch_failure (env : HttpEnv)
    (registry image manifest username password : String)
    (resp tokenResp : Response)
    (h1 : env (initialRequest registry image manifest username password) = .ok resp)
    (h2 : resp.statusCode = 401)
    (h3 : strStartsWith resp.wwwAuthenticate "Bearer" = true)
    (h4 : env (tokenEndpointRequest (parseAuthHeader resp.wwwAuthenticate)
            username password) = .ok tokenResp)
    (h5 : tokenResp.statusCode ≠ 200) :
    removeRegistryImage env registry image manifest username password
      = (.error ("Got bad response from registry: " ++ tokenResp.status),
         [initialRequest registry image manifest username password,
          tokenEndpointRequest (parseAuthHeader resp.wwwAuthenticate)
            username password]) := by
  simp [removeRegistryImage, h1, h2, h3, h4, h5]

/-- Witness for C3: a concrete delete whose token endpoint answers 403. -/
theorem removeRegistryImage_tokenFetch_failure_witness :
    removeRegistryImage (envBearer 403 "403 Forbidden" 200 "200 OK")
        "example.com" "library/foo" "sha256:abc" "" ""
      = (.error "Got bad response from registry: 403 Forbidden",
         [initialRequest "example.com" "library/foo" "sha256:abc" "" "",
          tokenEndpointRequest (parseAuthHeader bearerHdr) "" ""]) :=
  removeRegistryImage_tokenFetch_failure (envBearer 403 "403 Forbidden" 200 "200 OK")
    "example.com" "library/foo" "sha256:abc" "" ""
    ⟨401, "401 Unauthorized", bearerHdr, .ok none⟩
    ⟨403, "403 Forbidden", "", .ok (some tokenJson)⟩
    (by rfl) (by rfl) (by decide) (by rfl) (by decide)

/-- C1 (amended). Bearer-flow happy path: when the initial DELETE receives
401 with a Bearer challenge, the token-endpoint GET returns 200 with a
well-formed token body, and the retried DELETE returns status 200, the
call returns success (`nil`).  The claim's further allowance of status 202
on the retried DELETE does not hold; see the counterexample below. -/
theorem removeRegistryImage_bearer_retry200_ok (env : HttpEnv)
    (registry image manifest username password : String)
    (resp tokenResp digestResp : Response) (j : Json) (tok : TokenResponse)
    (h1 : env (initialRequest registry image manifest username password) = .ok resp)
    (h2 : resp.statusCode = 401)
    (h3 : strStartsWith resp.wwwAuthenticate "Bearer" = true)
    (h4 : env (tokenEndpointRequest (parseAuthHeader resp.wwwAuthenticate)
            username password) = .ok tokenResp)
    (h5 : tokenResp.statusCode = 200)
    (h6 : tokenResp.body = .ok (some j))
    (h7 : unmarshalTokenResponse j = .ok tok)
    (h8 : env (headerSet "Authorization" ("Bearer " ++ tok.Token)
            (initialRequest registry image manifest username password))
          = .ok digestResp)
    (h9 : digestResp.statusCode = 200) :
    (removeRegistryImage env registry image manifest username password).1
      = .ok () := by
  simp [removeRegistryImage, h1, h2, h3, h4, h5, h6, h7, h8, h9]

/-- Witness for C1: a concrete full bearer round trip whose retried DELETE
answers 200. -/
theorem removeRegistryImage_bearer_retry200_ok_witness :
    (removeRegistryImage (envBearer 200 "200 OK" 200 "200 OK")
      "example.com" "library/foo" "sha256:abc" "" "").1 = .ok () :=
  removeRegistryImage_bearer_retry200_ok (envBearer 200 "200 OK" 200 "200 OK")
    "example.com" "library/foo" "sha256:abc" "" ""
    ⟨401, "401 Unauthorized", bearerHdr, .ok none⟩
    ⟨200, "200 OK", "", .ok (some tokenJson)⟩
    ⟨200, "200 OK", "", .ok none⟩ tokenJson ⟨"tok123"⟩
    (by rfl) (by rfl) (by rfl) (by rfl) (by rfl) (by rfl) (by rfl) (by rfl)
    (by rfl)

/-- Counterexample for C1 as stated: a delete call whose initial DELETE
receives 401 with a valid Bearer challenge, whose token-endpoint GET
returns 200 with a well-formed token body, and whose retried DELETE
returns 202 — the call returns an error, not success, because the retried
path accepts only status 200
(`resource_docker_registry_image_funcs.go:201`). -/
theorem removeRegistryImage_bearer_retry202_error :
    ((envBearer 200 "200 OK" 202 "202 Accepted")
        (initialRequest "example.com" "library/foo" "sha256:abc" "" "")
      = .ok ⟨401, "401 Unauthorized", bearerHdr, .ok none⟩)
    ∧ strStartsWith bearerHdr "Bearer" = true
    ∧ ((envBearer 200 "200 OK" 202 "202 Accepted")
        (tokenEndpointRequest (parseAuthHeader bearerHdr) "" "")
      = .ok ⟨200, "200 OK", "", .ok (some tokenJson)⟩)
    ∧ unmarshalTokenResponse tokenJson = .ok ⟨"tok123"⟩
    ∧ ((envBearer 200 "200 OK" 202 "202 Accepted")
        (headerSet "Authorization" "Bearer tok123"
          (initialRequest "example.com" "library/foo" "sha256:abc" "" ""))
      = .ok ⟨202, "202 Accepted", "", .ok none⟩)
    ∧ (removeRegistryImage (envBearer 200 "200 OK" 202 "202 Accepted")
        "example.com" "library/foo" "sha256:abc" "" "").1
      = .error "Got bad response from registry: 202 Accepted" :=
  ⟨by rfl, by rfl, by rfl, by rfl, by rfl, by rfl⟩

/-- C4. When the bearer sub-flow completes its token fetch with token
value `tok.Token`, the retried DELETE is the initial request with its
`Authorization` header replaced: its headers are exactly
`Bearer` followed by the token, the basic-auth credentials (if any) being
gone, and it is the third and last request of the trace. -/
theorem removeRegistryImage_retried_bearer_header (env : HttpEnv)
    (registry image manifest username password : String)
    (resp tokenResp : Response) (j : Json) (tok : TokenResponse)
    (h1 : env (initialRequest registry image manifest username password) = .ok resp)
    (h2 : resp.statusCode = 401)
    (h3 : strStartsWith resp.wwwAuthenticate "Bearer" = true)
    (h4 : env (tokenEndpointRequest (parseAuthHeader resp.wwwAuthenticate)
            username password) = .ok tokenResp)
    (h5 : tokenResp.statusCode = 200)
    (h6 : tokenResp.body = .ok (some j))
    (h7 : unmarshalTokenResponse j = .ok tok) :
    (removeRegistryImage env registry image manifest username password).2
      = [initialRequest registry image manifest username password,
         tokenEndpointRequest (parseAuthHeader resp.wwwAuthenticate)
           username password,
         headerSet "Authorization" ("Bearer " ++ tok.Token)
           (initialRequest registry image manifest username password)]
    ∧ (headerSet "Authorization" ("Bearer " ++ tok.Token)
         (initialRequest registry image manifest username password)).headers
        = [("Authorization", "Bearer " ++ tok.Token)] := by
  constructor
  · cases hr : env (headerSet "Authorization" ("Bearer " ++ tok.Token)
        (initialRequest registry image manifest username password)) with
    | error e => simp [removeRegistryImage, h1, h2, h3, h4, h5, h6, h7, hr]
    | ok digestResp =>
        by_cases hd : digestResp.statusCode = 200 <;>
          simp [removeRegistryImage, h1, h2, h3, h4, h5, h6, h7, hr, hd]
  · by_cases hu : username = "" <;>
      simp [initialRequest, setBasicAuth, headerSet, hu]

/-- Witness for C4: the concrete happy-path delete of the C1 witness,
whose retried request carries exactly `Bearer tok123`. -/
theorem removeRegistryImage_retried_bearer_header_witness :
    (removeRegistryImage (envBearer 200 "200 OK" 200 "200 OK")
        "example.com" "library/foo" "sha256:abc" "" "").2
      = [initialRequest "example.com" "library/foo" "sha256:abc" "" "",
         tokenEndpointRequest (parseAuthHeader bearerHdr) "" "",
         headerSet "Authorization" "Bearer tok123"
           (initialRequest "example.com" "library/foo" "sha256:abc" "" "")]
    ∧ (headerSet "Authorization" "Bearer tok123"
         (initialRequest "example.com" "library/foo" "sha256:abc" "" "")).headers
        = [("Authorization", "Bearer tok123")] :=
  removeRegistryImage_retried_bearer_header (envBearer 200 "200 OK" 200 "200 OK")
    "example.com" "library/foo" "sha256:abc" "" ""
    ⟨401, "401 Unauthorized", bearerHdr, .ok none⟩
    ⟨200, "200 OK", "", .ok (some tokenJson)⟩ tokenJson ⟨"tok123"⟩
    (by rfl) (by rfl) (by rfl) (by rfl) (by rfl) (by rfl) (by rfl)

/-- C6. Both requests the delete flow can construct carry basic auth
exactly when the resolved username is non-empty: with an empty username
the initial DELETE and the token-endpoint GET have no headers at all, and
with a non-empty username both carry `Authorization: Basic` over the
base64 of `username:password`.  The third conjunct ties the construction
to the wire: the first request `removeRegistryImage` sends is
`initialRequest` (the token request's place in the trace is established by
the bearer-flow theorems). -/
theorem requests_basicAuth_iff_username (env : HttpEnv)
    (registry image manifest username password : String)
    (challenge : List (String × String)) :
    (initialRequest registry image manifest username password).headers
      = (if username = "" then []
         else [("Authorization",
                "Basic " ++ base64Encode false (strBytes (username ++ ":" ++ password)))])
    ∧ (tokenEndpointRequest challenge username password).headers
      = (if username = "" then []
         else [("Authorization",
                "Basic " ++ base64Encode false (strBytes (username ++ ":" ++ password)))])
    ∧ (removeRegistryImage env registry image manifest username password).2.head?
      = some (initialRequest registry image manifest username password) := by
  refine ⟨?_, ?_, ?_⟩
  · by_cases hu : username = "" <;>
      simp [initialRequest, setBasicAuth, headerSet, hu]
  · by_cases hu : username = "" <;>
      simp [tokenEndpointRequest, setBasicAuth, headerSet, hu]
  · cases h : env (initialRequest registry image manifest username password) <;>
      simp only [removeRegistryImage, h] <;>
      (repeat' split) <;> simp

/-- C7. When a reference names no registry, the delete path sets the
registry to `registry.hub.docker.com`, prefixes `library/` to a
single-segment repository, and looks credentials up under the normalized
(scheme-qualified) registry address; in particular `consul` resolves to
the same credential-table key as `registry.hub.docker.com/library/consul`. -/
theorem delete_default_registry_normalization :
    (∀ image, (parseImageOptions image).Registry = "" →
      (deleteNormalize image).Registry = "registry.hub.docker.com"
      ∧ ((parseImageOptions image).Repository.toList.any (fun c => c == '/') = false →
          (deleteNormalize image).Repository
            = "library/" ++ (parseImageOptions image).Repository)
      ∧ deleteCredKey image = "https://registry.hub.docker.com")
    ∧ deleteCredKey "consul"
        = deleteCredKey "registry.hub.docker.com/library/consul" := by
  constructor
  · intro image h
    have hreg : (deleteNormalize image).Registry = "registry.hub.docker.com" := by
      simp only [deleteNormalize]
      split_ifs <;> rfl
    refine ⟨hreg, ?_, ?_⟩
    · intro hc
      simp only [deleteNormalize]
      split_ifs <;> first | rfl | simp_all
    · show normalizeRegistryAddress (deleteNormalize image).Registry = _
      rw [hreg]
      rfl
  · rfl

/-- Witness for C7: the image string `consul`. -/
theorem delete_default_registry_normalization_witness :
    (deleteNormalize "consul").Registry = "registry.hub.docker.com"
    ∧ (deleteNormalize "consul").Repository = "library/consul"
    ∧ deleteCredKey "consul" = "https://registry.hub.docker.com" := by
  have h := delete_default_registry_normalization.1 "consul" (by rfl)
  exact ⟨h.1, h.2.1 (by rfl), h.2.2⟩

/-- C8. Against an empty credential table, every push submits a
registry-auth header equal to the URL-safe base64 of the empty JSON
object — the syntactically valid value `e30=` — rather than omitting the
header or failing. -/
theorem pushRegistryAuth_empty_table (image : String) :
    pushRegistryAuth [] image = base64Encode true (strBytes "\x7b\x7d")
    ∧ base64Encode true (strBytes "\x7b\x7d") = "e30=" := by
  constructor
  · by_cases h : (parseImageOptions image).Registry = "" <;>
      (simp [pushRegistryAuth, pushAuthResolved, configsLookup, marshalAuthConfig, h]; rfl)
  · rfl

/-- C9. When the resource's `keep_remote` attribute is true, the delete
handler returns success immediately and issues no HTTP request. -/
theorem keepRemote_skips_http (env : HttpEnv) (d : ResourceData)
    (configs : List (String × AuthConfigEntry))
    (h : d.keepRemote = true) :
    resourceDockerRegistryImageDelete env d configs = (.ok (), []) := by
  simp [resourceDockerRegistryImageDelete, h]

/-- Witness for C9: a concrete delete with `keep_remote` set, against an
environment where any request would fail. -/
theorem keepRemote_skips_http_witness :
    resourceDockerRegistryImageDelete (fun _ => .error "unreachable")
      ⟨"consul", "sha256:abc", true⟩ [] = (.ok (), []) :=
  keepRemote_skips_http (fun _ => .error "unreachable")
    ⟨"consul", "sha256:abc", true⟩ [] rfl

/-- C10. The permissive TLS transport is installed iff `TF_ACC` is present
and `strconv.Atoi` parses it to a value of at least 1: it stays strict
when the variable is unset, when parsing fails, and when the value is
below 1. -/
theorem tfAcc_insecure_gate :
    insecureTransportInstalled none = false
    ∧ (∀ s i, goAtoi s = .ok i →
        insecureTransportInstalled (some s) = decide (1 ≤ i))
    ∧ (∀ s e, goAtoi s = .error e →
        insecureTransportInstalled (some s) = false) := by
  refine ⟨rfl, ?_, ?_⟩ <;> intro s x h <;> simp [insecureTransportInstalled, h]

/-- Witness for C10: `TF_ACC=1` switches the transport, `TF_ACC=0` and a
non-numeric `TF_ACC` do not. -/
theorem tfAcc_insecure_gate_witness :
    insecureTransportInstalled (some "1") = true
    ∧ insecureTransportInstalled (some "0") = false
    ∧ insecureTransportInstalled (some "acc") = false := by
  refine ⟨?_, ?_, ?_⟩
  · simpa using tfAcc_insecure_gate.2.1 "1" 1 (by rfl)
  · simpa using tfAcc_insecure_gate.2.1 "0" 0 (by rfl)
  · simpa using tfAcc_insecure_gate.2.2 "acc" "invalid syntax" (by rfl)

end Docker
